import Mathlib

/-!
Shallow embedding of the wardrobe-shop backend (Django app `wardrobe_api/API`).

Conventions of the embedding:
* Database tables are Lean lists of records; a row's primary key is a `Nat` id.
* `DecimalField` / `FloatField` money values are embedded as exact rationals `ℚ`
  (the bookkeeping in the source is plain arithmetic; rounding of decimals and
  binary floats is abstracted away).
* `PositiveIntegerField` stock is embedded as `ℤ`, so that non-negativity is a
  provable invariant of the operations rather than a typing triviality.
* An ORM `obj.save()` on a loaded row is embedded as an update of the first row
  with the matching id (`updById`); primary keys are unique in the real store,
  so first-match update is the faithful semantics.
* A Django `ValidationError` raised inside `transaction.atomic()` aborts the
  whole unit of work, so every operation returns `Except err DB`: on `.error`
  the caller keeps the unchanged database (see the `...Step` wrappers).
* Binding slips in the source make some success paths unreachable: the sale
  serializer reads its lines under the key `items` although the field is bound
  to `sale_items`, the order line-item write passes a keyword that is not a
  field of `OrderItem`, and `approve_seller` reads `admin.role`, an attribute
  a Django User row lacks. Definitions carrying the source names model the
  methods as bound (always erroring where the source raises); the variants
  suffixed `Intended` model the algorithm those methods spell out and serve
  only as over-approximations for the stock invariant.
-/

/-- Role choices of `Profile.USER_ROLES` in models.py. -/
inductive Role where
  | SuperUser
  | Admin
  | Attendant
  | Customer
deriving DecidableEq

/-- `Profile` row (models.py): the role of a user; the user is identified by id.
Only the fields the verified operations touch are embedded. -/
structure Profile where
  user : Nat
  role : Role
deriving DecidableEq

/-- `Product` row (models.py): price is a positive decimal, quantity the stock. -/
structure Product where
  id : Nat
  price : ℚ
  quantity : ℤ
deriving DecidableEq

/-- `OrderItem` row (models.py): a line of an order, no price snapshot field. -/
structure OrderItem where
  product : Nat
  quantity : ℕ
deriving DecidableEq

/-- `Order.STATUS_CHOICES` in models.py. -/
inductive OrderStatus where
  | Pending
  | Intransit
  | Completed
  | Cancelled
deriving DecidableEq

/-- `Order` row (models.py) with its `orderitem_set` held inline. -/
structure Order where
  id : Nat
  shop : Nat
  total_amount : ℚ
  status : OrderStatus
  orderitem_set : List OrderItem
deriving DecidableEq

/-- `SaleItem` row (models.py): a line of a sale, `price` is the snapshot taken
at sale time. -/
structure SaleItem where
  product : Nat
  quantity : ℕ
  price : ℚ
deriving DecidableEq

/-- `Sale` row (models.py) with its `sale_items` held inline. -/
structure Sale where
  id : Nat
  shop : Nat
  total_amount : ℚ
  is_refunded : Bool
  total_refunded_amount : ℚ
  sale_items : List SaleItem
deriving DecidableEq

/-- `Refund.REFUND_TYPE_CHOICES` in models.py. -/
inductive RefundType where
  | Order
  | Sale
deriving DecidableEq

/-- `Refund` row (models.py): target references `sale` and `order` are nullable. -/
structure Refund where
  shop : Nat
  refund_type : RefundType
  sale : Option Nat
  order : Option Nat
  product : Nat
  quantity : ℕ
  refund_amount : ℚ
deriving DecidableEq

/-- `ApprovalRequest.REQUEST_TYPES` in models.py. -/
inductive RequestType where
  | Seller
  | Refund
deriving DecidableEq

/-- `ApprovalRequest.status` choices in models.py. -/
inductive ReqStatus where
  | Pending
  | Approved
  | Rejected
deriving DecidableEq

/-- `ApprovalRequest.PHASES` in models.py. -/
inductive Phase where
  | Pending
  | Approved
  | Rejected
  | Completed
deriving DecidableEq

/-- `ApprovalRequest` row (models.py); `admin` is the id of the user who created
the request. -/
structure ApprovalRequest where
  id : Nat
  request_type : RequestType
  admin : Nat
  shop : Nat
  status : ReqStatus
  phase : Phase
deriving DecidableEq

/-- The persistent store: one list per table the verified operations touch. -/
structure DB where
  products : List Product
  sales : List Sale
  orders : List Order
  refunds : List Refund
  approvals : List ApprovalRequest
  profiles : List Profile
deriving DecidableEq

/-- Update the first element satisfying `p` (an ORM row update keyed by a
unique primary key). -/
def updateFirst (p : α → Bool) (f : α → α) : List α → List α
  | [] => []
  | x :: xs => if p x then f x :: xs else x :: updateFirst p f xs

/-- Row lookups by primary key. -/
def findProduct (db : DB) (pid : Nat) : Option Product :=
  db.products.find? fun p => decide (p.id = pid)

/-- Lookup of a sale row by id. -/
def findSale (db : DB) (sid : Nat) : Option Sale :=
  db.sales.find? fun s => decide (s.id = sid)

/-- Lookup of an order row by id. -/
def findOrder (db : DB) (oid : Nat) : Option Order :=
  db.orders.find? fun o => decide (o.id = oid)

/-- Lookup of a profile row by the id of its user. -/
def findProfile (db : DB) (uid : Nat) : Option Profile :=
  db.profiles.find? fun pr => decide (pr.user = uid)

/-- Row update by primary key: `product.save()`. -/
def updateProduct (db : DB) (pid : Nat) (f : Product → Product) : DB :=
  { db with products := updateFirst (fun p => decide (p.id = pid)) f db.products }

/-- Row update by primary key: `sale.save()`. -/
def updateSale (db : DB) (sid : Nat) (f : Sale → Sale) : DB :=
  { db with sales := updateFirst (fun s => decide (s.id = sid)) f db.sales }

/-- Row update by primary key: `order.save()`. -/
def updateOrder (db : DB) (oid : Nat) (f : Order → Order) : DB :=
  { db with orders := updateFirst (fun o => decide (o.id = oid)) f db.orders }

/-- Row update by user id: `profile.save()`. -/
def updateProfile (db : DB) (uid : Nat) (f : Profile → Profile) : DB :=
  { db with profiles := updateFirst (fun pr => decide (pr.user = uid)) f db.profiles }

/-- Row update by primary key: `approval_request.save()`. -/
def updateApproval (db : DB) (rid : Nat) (f : ApprovalRequest → ApprovalRequest) : DB :=
  { db with approvals := updateFirst (fun a => decide (a.id = rid)) f db.approvals }

/-- `Order.get_items_quantity` (models.py): total quantity over the line items. -/
def Order.get_items_quantity (o : Order) : ℕ :=
  (o.orderitem_set.map OrderItem.quantity).sum

/-- `sum(refund.quantity for refund in order.refunds.all())` in `Refund.save`:
total refunded quantity over every refund row targeting the order. -/
def refundedQuantity (db : DB) (oid : Nat) : ℕ :=
  ((db.refunds.filter fun rf => decide (rf.order = some oid)).map Refund.quantity).sum

/-- Failure kinds of the refund processor. `MissingProduct` stands for a broken
`product` foreign key and cannot fire on a well-formed store. -/
inductive RefundError where
  | NotApproved
  | ExcessiveRefund
  | MissingProduct
deriving DecidableEq

/-- `Refund.clean` (models.py): require some Approved Refund-type
`ApprovalRequest` for the same shop, then require
`refund_amount ≤ product.price * quantity`. -/
def Refund.clean (db : DB) (r : Refund) : Except RefundError Unit :=
  match db.approvals.find? (fun a =>
      decide (a.shop = r.shop ∧ a.request_type = RequestType.Refund ∧
        a.status = ReqStatus.Approved)) with
  | none => .error RefundError.NotApproved
  | some _ =>
    match findProduct db r.product with
    | none => .error RefundError.MissingProduct
    | some p =>
      if p.price * (r.quantity : ℚ) < r.refund_amount then
        .error RefundError.ExcessiveRefund
      else
        .ok ()

/-- The Sale branch of `Refund.save`: subtract the amount from the sale total,
add it to the refunded total, restore stock, then flip `is_refunded` when the
updated refunded total reaches the updated total. -/
def saleRefundBranch (db : DB) (r : Refund) (sid : Nat) : DB :=
  let db1 := updateSale db sid fun s =>
    { s with total_amount := s.total_amount - r.refund_amount,
             total_refunded_amount := s.total_refunded_amount + r.refund_amount }
  let db2 := updateProduct db1 r.product fun p =>
    { p with quantity := p.quantity + (r.quantity : ℤ) }
  updateSale db2 sid fun s =>
    if s.total_refunded_amount ≥ s.total_amount then
      { s with is_refunded := true }
    else s

/-- The Order branch of `Refund.save`: subtract the amount from the order total,
cancel the order once the refunded quantity reaches the line-item quantity
total, then restore stock. -/
def orderRefundBranch (db : DB) (r : Refund) (oid : Nat) : DB :=
  let db1 := updateOrder db oid fun o =>
    { o with total_amount := o.total_amount - r.refund_amount }
  let db2 :=
    match findOrder db1 oid with
    | some o =>
      if refundedQuantity db1 oid ≥ o.get_items_quantity then
        updateOrder db1 oid fun o2 => { o2 with status := OrderStatus.Cancelled }
      else db1
    | none => db1
  updateProduct db2 r.product fun p =>
    { p with quantity := p.quantity + (r.quantity : ℤ) }

/-- `Refund.save` (models.py): run `clean`, persist the refund row, then apply
the Sale or Order branch; a refund whose target reference is unset persists the
row and changes nothing else. -/
def Refund.save (db : DB) (r : Refund) : Except RefundError DB :=
  match Refund.clean db r with
  | .error e => .error e
  | .ok _ =>
    let db0 : DB := { db with refunds := r :: db.refunds }
    match r.refund_type, r.sale, r.order with
    | RefundType.Sale, some sid, _ => .ok (saleRefundBranch db0 r sid)
    | RefundType.Order, _, some oid => .ok (orderRefundBranch db0 r oid)
    | _, _, _ => .ok db0

/-- Run a refund request against the store: on a validation error the atomic
transaction leaves the store unchanged. -/
def refundStep (db : DB) (r : Refund) : DB :=
  match Refund.save db r with
  | .ok db2 => db2
  | .error _ => db

/-- A requested line of a sale or order: product id and quantity. -/
structure ItemRequest where
  product : Nat
  quantity : ℕ
deriving DecidableEq

/-- Failure kinds of transaction creation (serializers.py). `ProductNotFound`
stands for `Product.objects.get` finding no row; `FieldError` stands for the
KeyError/TypeError raised by the order line handling as written (a missing
`id` key and an `item=` keyword that is not a field of `OrderItem`). -/
inductive CreateError where
  | NoItems
  | ProductNotFound (pid : Nat)
  | InsufficientStock (pid : Nat)
  | FieldError
deriving DecidableEq

/-- A fresh primary key for a new sale row. -/
def freshSaleId (db : DB) : Nat :=
  db.sales.foldr (fun s m => max (s.id + 1) m) 0

/-- A fresh primary key for a new order row. -/
def freshOrderId (db : DB) : Nat :=
  db.orders.foldr (fun o m => max (o.id + 1) m) 0

/-- The item loop written in `SaleSerializer.create` (serializers.py:269-286):
for each line check stock, record a `SaleItem` with the current price as
snapshot, decrement stock and accumulate the line total. As bound the loop is
never entered, because `items_data` is always None (see
`SaleSerializer.create`); it is the body of `SaleSerializer.createIntended`. -/
def processSaleItems : DB → Nat → ℚ → List ItemRequest → Except CreateError (DB × ℚ)
  | db, _, total, [] => .ok (db, total)
  | db, sid, total, it :: rest =>
    match findProduct db it.product with
    | none => .error (CreateError.ProductNotFound it.product)
    | some p =>
      if p.quantity < (it.quantity : ℤ) then
        .error (CreateError.InsufficientStock it.product)
      else
        processSaleItems
          (updateProduct
            (updateSale db sid fun s =>
              { s with sale_items :=
                  s.sale_items ++ [⟨it.product, it.quantity, p.price⟩] })
            it.product fun q => { q with quantity := q.quantity - (it.quantity : ℤ) })
          sid (total + p.price * (it.quantity : ℚ)) rest

/-- `SaleSerializer.create` (serializers.py:257-292) as bound: the `items`
field is declared with source `sale_items` (line 251), so the validated lines
sit under the key `sale_items` and `validated_data.get('items')` (line 259)
is always None; the method unconditionally raises the no-items validation
error before the transaction opens, whatever lines the request carries. -/
def SaleSerializer.create (_db : DB) (_shop : Nat) (_items : List ItemRequest) :
    Except CreateError DB :=
  .error CreateError.NoItems

/-- The creation algorithm spelled out below the broken items read of
`SaleSerializer.create`: guard against an empty list, create the sale row,
run the item loop inside one atomic transaction, persist the total. In the
source this path is unreachable; it is kept, clearly named, as an
over-approximation of reachable behavior for the stock invariant, to which
it only adds decrement-after-a-sufficiency-check steps. -/
def SaleSerializer.createIntended (db : DB) (shop : Nat) (items : List ItemRequest) :
    Except CreateError DB :=
  if items.isEmpty then .error CreateError.NoItems
  else
    match processSaleItems
        { db with sales := ⟨freshSaleId db, shop, 0, false, 0, []⟩ :: db.sales }
        (freshSaleId db) 0 items with
    | .error e => .error e
    | .ok (db1, total) =>
      .ok (updateSale db1 (freshSaleId db) fun s => { s with total_amount := total })

/-- The item loop `OrderSerializer.create` spells out (serializers.py:229-237),
with its line-item write taken as recording an `OrderItem` row: check stock,
record the line (no price snapshot field), decrement stock, accumulate the
total from the current price. In the source no iteration completes: the write
passes `item=` to `OrderItem.objects.create` although the model field is
`product` (models.py:133-136), and `item_data['id']` reads a key the
field-less `OrderItemSerializer` never produces, so the first line raises
(see `OrderSerializer.create`). This idealized loop is the body of
`OrderSerializer.createIntended`. -/
def processOrderItems : DB → Nat → ℚ → List ItemRequest → Except CreateError (DB × ℚ)
  | db, _, total, [] => .ok (db, total)
  | db, oid, total, it :: rest =>
    match findProduct db it.product with
    | none => .error (CreateError.ProductNotFound it.product)
    | some p =>
      if p.quantity < (it.quantity : ℤ) then
        .error (CreateError.InsufficientStock it.product)
      else
        processOrderItems
          (updateProduct
            (updateOrder db oid fun o =>
              { o with orderitem_set := o.orderitem_set ++ [⟨it.product, it.quantity⟩] })
            it.product fun q => { q with quantity := q.quantity - (it.quantity : ℤ) })
          oid (total + p.price * (it.quantity : ℚ)) rest

/-- `OrderSerializer.create` (serializers.py:224-240) as bound: with no line
items the loop body never runs and an empty Pending order with total 0 is
persisted; with any line item the first iteration raises - `item_data['id']`
has no such key and the `OrderItem.objects.create(item=...)` write names a
keyword that is not a field of `OrderItem` - and the atomic block rolls the
order row back. -/
def OrderSerializer.create (db : DB) (shop : Nat) (items : List ItemRequest) :
    Except CreateError DB :=
  match items with
  | [] =>
    .ok { db with orders :=
      ⟨freshOrderId db, shop, 0, OrderStatus.Pending, []⟩ :: db.orders }
  | _ :: _ => .error CreateError.FieldError

/-- The creation algorithm `OrderSerializer.create` spells out: create the
order row with status Pending, run the item loop inside one atomic
transaction, persist the total. In the source no request with a line item
can complete it; kept, clearly named, as an over-approximation of reachable
behavior for the stock invariant. -/
def OrderSerializer.createIntended (db : DB) (shop : Nat) (items : List ItemRequest) :
    Except CreateError DB :=
  match processOrderItems
      { db with orders := ⟨freshOrderId db, shop, 0, OrderStatus.Pending, []⟩ :: db.orders }
      (freshOrderId db) 0 items with
  | .error e => .error e
  | .ok (db1, total) =>
    .ok (updateOrder db1 (freshOrderId db) fun o => { o with total_amount := total })

/-- Run a sale creation step of the intended algorithm: on any error the
atomic transaction rolls back and the store is unchanged. The as-bound method
never succeeds, so for the stock invariant this step over-approximates what
the source can do to stock. -/
def saleStep (db : DB) (shop : Nat) (items : List ItemRequest) : DB :=
  match SaleSerializer.createIntended db shop items with
  | .ok db2 => db2
  | .error _ => db

/-- Run an order creation step of the intended algorithm: on any error the
atomic transaction rolls back and the store is unchanged. The as-bound method
only ever creates empty orders, so this step over-approximates what the
source can do to stock. -/
def orderStep (db : DB) (shop : Nat) (items : List ItemRequest) : DB :=
  match OrderSerializer.createIntended db shop items with
  | .ok db2 => db2
  | .error _ => db

/-- `ProductSerializer` price update: a later change of a catalog price. -/
def updateProductPrice (db : DB) (pid : Nat) (newPrice : ℚ) : DB :=
  updateProduct db pid fun p => { p with price := newPrice }

/-- Failure kinds of `ApprovalRequest.approve_seller`. `Unauthorized` is the
rejection the source intends for a non-SuperUser actor (its message names
SuperUser) but never reaches; `AttributeError` is the crash of the
`admin.role` read that fires first. -/
inductive ApproveError where
  | NotSeller
  | Unauthorized
  | AttributeError
deriving DecidableEq

/-- `ApprovalRequest.approve_seller` (models.py:309-324) as written: after the
request-type check it reads `self.admin.role`, an attribute the Django User
row does not have (the role lives on `Profile`; the later write correctly
goes through `self.admin.profile.role`), so every Seller-type call raises
AttributeError before any role comparison or write. -/
def ApprovalRequest.approve_seller (_db : DB) (req : ApprovalRequest) :
    Except ApproveError DB :=
  if req.request_type ≠ RequestType.Seller then .error ApproveError.NotSeller
  else .error ApproveError.AttributeError

/-- Run a seller approval: an exception leaves the store unchanged. -/
def approveStep (db : DB) (req : ApprovalRequest) : DB :=
  match ApprovalRequest.approve_seller db req with
  | .ok db2 => db2
  | .error _ => db

/-- The operations that touch product stock. -/
inductive Op where
  | createSale (shop : Nat) (items : List ItemRequest)
  | createOrder (shop : Nat) (items : List ItemRequest)
  | applyRefund (r : Refund)
deriving DecidableEq

/-- One request against the store; a failed request changes nothing. -/
def stepOp (db : DB) : Op → DB
  | Op.createSale shop items => saleStep db shop items
  | Op.createOrder shop items => orderStep db shop items
  | Op.applyRefund r => refundStep db r

/-- A sequence of requests against the store. -/
def runOps (db : DB) (ops : List Op) : DB :=
  ops.foldl stepOp db

/-- The stock invariant: every product row holds a non-negative quantity. -/
def stockNonneg (db : DB) : Prop :=
  ∀ p ∈ db.products, 0 ≤ p.quantity

instance (db : DB) : Decidable (stockNonneg db) := by
  unfold stockNonneg; infer_instance

instance {ε α : Type} [DecidableEq ε] [DecidableEq α] : DecidableEq (Except ε α) :=
  fun x y =>
    match x, y with
    | .ok a, .ok b =>
      if h : a = b then .isTrue (by rw [h]) else
        .isFalse (fun hc => h (Except.ok.inj hc))
    | .error a, .error b =>
      if h : a = b then .isTrue (by rw [h]) else
        .isFalse (fun hc => h (Except.error.inj hc))
    | .ok _, .error _ => .isFalse (fun hc => Except.noConfusion hc)
    | .error _, .ok _ => .isFalse (fun hc => Except.noConfusion hc)

/-! ### Concrete stores used by the witnesses -/

/-- A store with one product, one sale of total 100, and one Approved
Refund-type approval request for the shop of the sale. -/
def C1db : DB :=
  { products := [⟨1, 100, 10⟩]
  , sales := [⟨1, 7, 100, false, 0, [⟨1, 1, 100⟩]⟩]
  , orders := []
  , refunds := []
  , approvals := [⟨1, RequestType.Refund, 5, 7, ReqStatus.Approved, Phase.Pending⟩]
  , profiles := [] }

/-- The sale row of `C1db`. -/
def C1sale : Sale := ⟨1, 7, 100, false, 0, [⟨1, 1, 100⟩]⟩

/-- An approved refund of 30 against the sale of `C1db`. -/
def C1refund30 : Refund := ⟨7, RefundType.Sale, some 1, none, 1, 1, 30⟩

/-- A second approved refund of 70 against the sale of `C1db`. -/
def C1refund70 : Refund := ⟨7, RefundType.Sale, some 1, none, 1, 1, 70⟩

/-- A store with an order of two line items of quantities 3 and 2. -/
def C2db : DB :=
  { products := [⟨1, 10, 0⟩]
  , sales := []
  , orders := [⟨1, 7, 50, OrderStatus.Pending, [⟨1, 3⟩, ⟨1, 2⟩]⟩]
  , refunds := []
  , approvals := [⟨1, RequestType.Refund, 5, 7, ReqStatus.Approved, Phase.Pending⟩]
  , profiles := [] }

/-- The order row of `C2db`. -/
def C2order : Order := ⟨1, 7, 50, OrderStatus.Pending, [⟨1, 3⟩, ⟨1, 2⟩]⟩

/-- A refund of 3 of the 5 ordered units. -/
def C2refund3 : Refund := ⟨7, RefundType.Order, none, some 1, 1, 3, 30⟩

/-- A refund of the remaining 2 ordered units. -/
def C2refund2 : Refund := ⟨7, RefundType.Order, none, some 1, 1, 2, 20⟩

/-- A store whose only approval request is still Pending. -/
def C3db : DB :=
  { products := [⟨1, 100, 10⟩]
  , sales := [⟨1, 7, 100, false, 0, [⟨1, 1, 100⟩]⟩]
  , orders := []
  , refunds := []
  , approvals := [⟨1, RequestType.Refund, 5, 7, ReqStatus.Pending, Phase.Pending⟩]
  , profiles := [] }

/-- A refund attempt without any Approved approval request. -/
def C3refund : Refund := ⟨7, RefundType.Sale, some 1, none, 1, 1, 30⟩

/-- A store with an Approved approval and a product of price 10. -/
def C4db : DB :=
  { products := [⟨1, 10, 5⟩]
  , sales := [⟨1, 7, 10, false, 0, [⟨1, 1, 10⟩]⟩]
  , orders := []
  , refunds := []
  , approvals := [⟨1, RequestType.Refund, 5, 7, ReqStatus.Approved, Phase.Pending⟩]
  , profiles := [] }

/-- A refund of 100 for one unit worth 10: exceeds the item value. -/
def C4refund : Refund := ⟨7, RefundType.Sale, some 1, none, 1, 1, 100⟩

/-- A store with a single product of stock 3. -/
def C5db : DB :=
  { products := [⟨1, 5, 3⟩]
  , sales := []
  , orders := []
  , refunds := []
  , approvals := []
  , profiles := [] }

/-- A request of 4 units where only 3 are in stock. -/
def C5items : List ItemRequest := [⟨1, 4⟩]

/-- A store with two products for the snapshot example. -/
def C6db : DB :=
  { products := [⟨1, 5, 10⟩, ⟨2, 3, 10⟩]
  , sales := []
  , orders := []
  , refunds := []
  , approvals := []
  , profiles := [] }

/-- Two lines: 2 units of product 1 and 1 unit of product 2. -/
def C6items : List ItemRequest := [⟨1, 2⟩, ⟨2, 1⟩]

/-- A store for the stock-invariant run. -/
def C7db : DB :=
  { products := [⟨1, 5, 4⟩, ⟨2, 3, 2⟩]
  , sales := []
  , orders := []
  , refunds := []
  , approvals := [⟨1, RequestType.Refund, 5, 7, ReqStatus.Approved, Phase.Pending⟩]
  , profiles := [] }

/-- A run of requests: a sale, an over-large sale that must abort, an order,
and a refund restoring stock. -/
def C7ops : List Op :=
  [ Op.createSale 7 [⟨1, 3⟩]
  , Op.createSale 7 [⟨1, 3⟩]
  , Op.createOrder 7 [⟨2, 2⟩]
  , Op.applyRefund ⟨7, RefundType.Sale, some (freshSaleId C7db), none, 1, 2, 8⟩ ]

/-- A store whose approval-request admin holds the Admin role only. -/
def C8db : DB :=
  { products := []
  , sales := []
  , orders := []
  , refunds := []
  , approvals := [⟨2, RequestType.Seller, 5, 7, ReqStatus.Pending, Phase.Pending⟩]
  , profiles := [⟨5, Role.Admin⟩] }

/-- The same store with the actor granted the SuperUser role. -/
def C8dbSuper : DB :=
  { C8db with profiles := [⟨5, Role.SuperUser⟩] }

/-- The Seller-type approval request of `C8db`. -/
def C8req : ApprovalRequest := ⟨2, RequestType.Seller, 5, 7, ReqStatus.Pending, Phase.Pending⟩

/-- A store with exactly one Approved Refund-type approval request. -/
def C9db : DB :=
  { products := [⟨1, 100, 10⟩]
  , sales := [⟨1, 7, 100, false, 0, [⟨1, 1, 100⟩]⟩]
  , orders := []
  , refunds := []
  , approvals := [⟨1, RequestType.Refund, 5, 7, ReqStatus.Approved, Phase.Pending⟩]
  , profiles := [] }

/-- A first refund relying on the single approval of `C9db`. -/
def C9refund1 : Refund := ⟨7, RefundType.Sale, some 1, none, 1, 1, 30⟩

/-- The store after the first refund of `C9db` has been applied. -/
def C9dbAfter : DB :=
  { products := [⟨1, 100, 11⟩]
  , sales := [⟨1, 7, 70, false, 30, [⟨1, 1, 100⟩]⟩]
  , orders := []
  , refunds := [C9refund1]
  , approvals := [⟨1, RequestType.Refund, 5, 7, ReqStatus.Approved, Phase.Pending⟩]
  , profiles := [] }

/-- A second refund relying on the same single approval of `C9db`. -/
def C9refund2 : Refund := ⟨7, RefundType.Sale, some 1, none, 1, 1, 70⟩

/-- A store with an Approved approval, a sale and an order, for the
missing-target frame claim. -/
def C10db : DB :=
  { products := [⟨1, 100, 5⟩]
  , sales := [⟨1, 7, 100, false, 0, [⟨1, 1, 100⟩]⟩]
  , orders := [⟨1, 7, 50, OrderStatus.Pending, [⟨1, 3⟩]⟩]
  , refunds := []
  , approvals := [⟨1, RequestType.Refund, 5, 7, ReqStatus.Approved, Phase.Pending⟩]
  , profiles := [] }

/-- A refund typed Sale whose sale reference is unset. -/
def C10refund : Refund := ⟨7, RefundType.Sale, none, none, 1, 1, 30⟩

/-! ### Generic lemmas about `updateFirst` -/

theorem updateFirst_find?_self {α : Type} (p : α → Bool) (f : α → α)
    (hf : ∀ x, p (f x) = p x) :
    ∀ l : List α, (updateFirst p f l).find? p = (l.find? p).map f := by
  intro l
  induction l with
  | nil => rfl
  | cons x xs ih =>
    by_cases hx : p x
    · simp [updateFirst, hx, List.find?_cons, hf]
    · simp only [updateFirst, hx, if_false, Bool.false_eq_true]
      rw [List.find?_cons_of_neg _ (by simp [hx]), List.find?_cons_of_neg _ (by simp [hx]), ih]

theorem updateFirst_find?_of_disj {α : Type} (p q : α → Bool) (f : α → α)
    (hq : ∀ x, q (f x) = q x) (hdisj : ∀ x, p x = true → q x = false) :
    ∀ l : List α, (updateFirst p f l).find? q = l.find? q := by
  intro l
  induction l with
  | nil => rfl
  | cons x xs ih =>
    by_cases hx : p x
    · have hqx : q x = false := hdisj x hx
      simp only [updateFirst, hx, if_true]
      rw [List.find?_cons_of_neg _ (by simp [hq, hqx]), List.find?_cons_of_neg _ (by simp [hqx])]
    · simp only [updateFirst, hx, if_false, Bool.false_eq_true]
      by_cases hqx : q x
      · rw [List.find?_cons_of_pos _ (by simp [hqx]), List.find?_cons_of_pos _ (by simp [hqx])]
      · rw [List.find?_cons_of_neg _ (by simp [hqx]), List.find?_cons_of_neg _ (by simp [hqx]), ih]

theorem updateFirst_mem {α : Type} (p : α → Bool) (f : α → α) :
    ∀ l : List α, ∀ y ∈ updateFirst p f l,
      y ∈ l ∨ ∃ x, l.find? p = some x ∧ y = f x := by
  intro l
  induction l with
  | nil => intro y hy; cases hy
  | cons x xs ih =>
    intro y hy
    by_cases hx : p x
    · simp only [updateFirst, hx, if_true, List.mem_cons] at hy
      rcases hy with hy | hy
      · exact Or.inr ⟨x, by rw [List.find?_cons_of_pos _ hx], hy⟩
      · exact Or.inl (List.mem_cons_of_mem _ hy)
    · simp only [updateFirst, hx, if_false, Bool.false_eq_true, List.mem_cons] at hy
      rcases hy with hy | hy
      · exact Or.inl (by simp [hy])
      · rcases ih y hy with h | ⟨a, ha, hya⟩
        · exact Or.inl (List.mem_cons_of_mem _ h)
        · exact Or.inr ⟨a, by rw [List.find?_cons_of_neg _ (by simp [hx])]; exact ha, hya⟩

/-! ### Lookup and update lemmas for the store -/

theorem findSale_updateSale_self (db : DB) (sid : Nat) (f : Sale → Sale)
    (hf : ∀ s, (f s).id = s.id) :
    findSale (updateSale db sid f) sid = (findSale db sid).map f := by
  unfold findSale updateSale
  exact updateFirst_find?_self _ f (fun x => by simp [hf]) db.sales

theorem findOrder_updateOrder_self (db : DB) (oid : Nat) (f : Order → Order)
    (hf : ∀ o, (f o).id = o.id) :
    findOrder (updateOrder db oid f) oid = (findOrder db oid).map f := by
  unfold findOrder updateOrder
  exact updateFirst_find?_self _ f (fun x => by simp [hf]) db.orders

theorem findProduct_updateProduct_self (db : DB) (pid : Nat) (f : Product → Product)
    (hf : ∀ p, (f p).id = p.id) :
    findProduct (updateProduct db pid f) pid = (findProduct db pid).map f := by
  unfold findProduct updateProduct
  exact updateFirst_find?_self _ f (fun x => by simp [hf]) db.products

theorem findProduct_updateProduct_ne (db : DB) (pid q : Nat) (f : Product → Product)
    (hf : ∀ p, (f p).id = p.id) (hne : pid ≠ q) :
    findProduct (updateProduct db pid f) q = findProduct db q := by
  unfold findProduct updateProduct
  exact updateFirst_find?_of_disj _ _ f (fun x => by simp [hf])
    (fun x hx => by
      simp only [decide_eq_true_eq] at hx
      simp [hx, hne]) db.products

theorem findProduct_price_updateProduct (db : DB) (pid : Nat) (f : Product → Product)
    (hf : ∀ p, (f p).id = p.id) (hpr : ∀ p, (f p).price = p.price) (q : Nat) :
    (findProduct (updateProduct db pid f) q).map Product.price
      = (findProduct db q).map Product.price := by
  by_cases h : pid = q
  · subst h
    rw [findProduct_updateProduct_self db pid f hf]
    cases findProduct db pid with
    | none => rfl
    | some p => simp [hpr]
  · rw [findProduct_updateProduct_ne db pid q f hf h]

/-! ### Claim C3: refunds require an Approved approval request -/

/-- Claim C3: when no Approved Refund-type ApprovalRequest scoped to the shop
of the refund exists, the refund application fails with NotApproved and the
store — target sale or order, product stock, persisted refunds — is unchanged. -/
theorem refund_requires_approval (db : DB) (r : Refund)
    (h : ∀ a ∈ db.approvals, ¬(a.shop = r.shop ∧ a.request_type = RequestType.Refund ∧
      a.status = ReqStatus.Approved)) :
    Refund.save db r = .error RefundError.NotApproved ∧ refundStep db r = db := by
  have hfind : db.approvals.find? (fun a =>
      decide (a.shop = r.shop ∧ a.request_type = RequestType.Refund ∧
        a.status = ReqStatus.Approved)) = none := by
    rw [List.find?_eq_none]
    intro a ha
    simpa using h a ha
  have hsave : Refund.save db r = .error RefundError.NotApproved := by
    unfold Refund.save Refund.clean
    rw [hfind]
  exact ⟨hsave, by unfold refundStep; rw [hsave]⟩

/-- Witness for C3 on a store whose only approval request is Pending. -/
theorem refund_requires_approval_witness :
    Refund.save C3db C3refund = .error RefundError.NotApproved ∧
      refundStep C3db C3refund = C3db :=
  refund_requires_approval C3db C3refund (by decide)

/-! ### Claim C4: refund amount bounded by item value -/

/-- Claim C4: when the refund amount exceeds `product.price * quantity`, the
refund application fails with ExcessiveRefund and the store is unchanged. -/
theorem refund_amount_bounded (db : DB) (r : Refund) (a : ApprovalRequest) (p : Product)
    (ha : a ∈ db.approvals)
    (haok : a.shop = r.shop ∧ a.request_type = RequestType.Refund ∧
      a.status = ReqStatus.Approved)
    (hp : findProduct db r.product = some p)
    (hamt : p.price * (r.quantity : ℚ) < r.refund_amount) :
    Refund.save db r = .error RefundError.ExcessiveRefund ∧ refundStep db r = db := by
  have hex : (db.approvals.find? (fun a2 =>
      decide (a2.shop = r.shop ∧ a2.request_type = RequestType.Refund ∧
        a2.status = ReqStatus.Approved))).isSome := by
    rw [List.find?_isSome]
    exact ⟨a, ha, by simp [haok.1, haok.2.1, haok.2.2]⟩
  obtain ⟨b, hb⟩ := Option.isSome_iff_exists.mp hex
  have hsave : Refund.save db r = .error RefundError.ExcessiveRefund := by
    unfold Refund.save Refund.clean
    rw [hb, hp]
    simp [hamt]
  exact ⟨hsave, by unfold refundStep; rw [hsave]⟩

/-- Witness for C4: a refund of 100 for a single unit worth 10. -/
theorem refund_amount_bounded_witness :
    Refund.save C4db C4refund = .error RefundError.ExcessiveRefund ∧
      refundStep C4db C4refund = C4db :=
  refund_amount_bounded C4db C4refund
    ⟨1, RequestType.Refund, 5, 7, ReqStatus.Approved, Phase.Pending⟩
    ⟨1, 10, 5⟩ (by decide) (by decide) (by decide)
    (by norm_num [C4refund])

/-! ### Claim C10: a refund with a missing target only persists the row -/

/-- Claim C10: a refund typed Sale without a sale reference, or typed Order
without an order reference, persists the refund row and changes nothing else:
no total adjusted, no flag flipped, no stock restored. -/
theorem refund_without_target_frame (db : DB) (r : Refund)
    (hok : Refund.clean db r = .ok ())
    (h : (r.refund_type = RefundType.Sale ∧ r.sale = none) ∨
         (r.refund_type = RefundType.Order ∧ r.order = none)) :
    ∃ db2, Refund.save db r = .ok db2 ∧
      db2.refunds = r :: db.refunds ∧ db2.products = db.products ∧
      db2.sales = db.sales ∧ db2.orders = db.orders ∧
      db2.approvals = db.approvals ∧ db2.profiles = db.profiles := by
  refine ⟨{ db with refunds := r :: db.refunds }, ?_, rfl, rfl, rfl, rfl, rfl, rfl⟩
  unfold Refund.save
  rw [hok]
  rcases h with ⟨h1, h2⟩ | ⟨h1, h2⟩
  · cases ho : r.order <;> simp [h1, h2, ho]
  · cases hs : r.sale <;> simp [h1, h2, hs]

/-- Witness for C10: a Sale-typed refund with no sale reference set. -/
theorem refund_without_target_frame_witness :
    ∃ db2, Refund.save C10db C10refund = .ok db2 ∧
      db2.refunds = C10refund :: C10db.refunds ∧ db2.products = C10db.products ∧
      db2.sales = C10db.sales ∧ db2.orders = C10db.orders ∧
      db2.approvals = C10db.approvals ∧ db2.profiles = C10db.profiles :=
  refund_without_target_frame C10db C10refund
    (by norm_num [C10db, C10refund, Refund.clean, findProduct, List.find?])
    (Or.inl ⟨rfl, rfl⟩)

/-! ### Claim C8: seller approval crashes before any privilege check -/

/-- Claim C8 (code bug): on every Seller-type request - whatever role the
admin of the request holds - `approve_seller` stops with the AttributeError
of the `admin.role` read: it never answers Unauthorized for a non-SuperUser
actor and never writes the Admin role for a SuperUser one, and the store,
profile rows included, is unchanged either way. -/
theorem seller_approval_crashes :
    (∀ (db : DB) (req : ApprovalRequest),
      req.request_type = RequestType.Seller →
      ApprovalRequest.approve_seller db req = .error ApproveError.AttributeError ∧
        approveStep db req = db) ∧
    (ApprovalRequest.approve_seller C8db C8req = .error ApproveError.AttributeError ∧
      approveStep C8db C8req = C8db) ∧
    (ApprovalRequest.approve_seller C8dbSuper C8req = .error ApproveError.AttributeError ∧
      approveStep C8dbSuper C8req = C8dbSuper) := by
  constructor
  · intro db req hty
    have hsave : ApprovalRequest.approve_seller db req
        = .error ApproveError.AttributeError := by
      unfold ApprovalRequest.approve_seller
      rw [if_neg (by simp [hty])]
    exact ⟨hsave, by unfold approveStep; rw [hsave]⟩
  · exact ⟨⟨rfl, rfl⟩, rfl, rfl⟩

/-- Witness for C8: the crash applied to the concrete Seller-type request,
both with an Admin-role actor and with a SuperUser one. -/
theorem seller_approval_crashes_witness :
    (ApprovalRequest.approve_seller C8db C8req = .error ApproveError.AttributeError ∧
      approveStep C8db C8req = C8db) ∧
    (ApprovalRequest.approve_seller C8dbSuper C8req = .error ApproveError.AttributeError ∧
      approveStep C8dbSuper C8req = C8dbSuper) :=
  ⟨seller_approval_crashes.1 C8db C8req (by decide),
   seller_approval_crashes.1 C8dbSuper C8req (by decide)⟩

/-! ### Claim C9: the approval gate does not limit the number of refunds -/

theorem orderRefundBranch_approvals (db : DB) (r : Refund) (oid : Nat) :
    (orderRefundBranch db r oid).approvals = db.approvals := by
  unfold orderRefundBranch
  dsimp only
  split
  · split <;> rfl
  · rfl

theorem Refund.clean_ok_of_save (db db2 : DB) (r : Refund)
    (h : Refund.save db r = .ok db2) : Refund.clean db r = .ok () := by
  unfold Refund.save at h
  cases hc : Refund.clean db r with
  | ok u => cases u; rfl
  | error e => rw [hc] at h; simp at h

theorem Refund.save_approvals (db db2 : DB) (r : Refund)
    (h : Refund.save db r = .ok db2) : db2.approvals = db.approvals := by
  have hc := Refund.clean_ok_of_save db db2 r h
  unfold Refund.save at h
  rw [hc] at h
  cases hrt : r.refund_type <;> cases hs : r.sale <;> cases ho : r.order <;>
      simp only [hrt, hs, ho] at h <;> cases h
  all_goals first
    | rfl
    | exact orderRefundBranch_approvals _ _ _

theorem Refund.save_ok_of_clean (db : DB) (r : Refund)
    (hc : Refund.clean db r = .ok ()) : ∃ db3, Refund.save db r = .ok db3 := by
  unfold Refund.save
  rw [hc]
  cases hrt : r.refund_type <;> cases hs : r.sale <;> cases ho : r.order <;>
    simp only [hrt, hs, ho] <;> exact ⟨_, rfl⟩

/-- Claim C9 counterexample: in a store whose only approval request is a
single Approved Refund-type one, two successive refunds both persist — the
second refund relying on the same approval is not rejected. -/
theorem refund_single_approval_cex :
    C9db.approvals = [⟨1, RequestType.Refund, 5, 7, ReqStatus.Approved, Phase.Pending⟩] ∧
    (((Refund.save C9db C9refund1).toOption.bind fun d =>
        (Refund.save d C9refund2).toOption).map fun d => d.refunds.length) = some 2 := by
  refine ⟨rfl, ?_⟩
  norm_num [C9db, C9refund1, C9refund2, Refund.save, Refund.clean, findProduct, findSale,
    saleRefundBranch, updateSale, updateProduct, updateFirst, List.find?, Except.toOption]

/-- Claim C9 amended: an Approved Refund-type ApprovalRequest for the shop is
required for a refund to persist, but applying a refund leaves the approval
records untouched, so the same approval gates any number of later refunds: a
second refund that passes validation is accepted, not rejected. -/
theorem refund_approval_not_consumed (db db2 : DB) (r : Refund)
    (h : Refund.save db r = .ok db2) :
    db2.approvals = db.approvals ∧
    (∃ a ∈ db.approvals, a.shop = r.shop ∧ a.request_type = RequestType.Refund ∧
      a.status = ReqStatus.Approved) ∧
    ∀ r2 : Refund, Refund.clean db2 r2 = .ok () → ∃ db3, Refund.save db2 r2 = .ok db3 := by
  refine ⟨Refund.save_approvals db db2 r h, ?_, fun r2 hc2 => Refund.save_ok_of_clean db2 r2 hc2⟩
  have hc := Refund.clean_ok_of_save db db2 r h
  unfold Refund.clean at hc
  cases hfind : db.approvals.find? (fun a =>
      decide (a.shop = r.shop ∧ a.request_type = RequestType.Refund ∧
        a.status = ReqStatus.Approved)) with
  | none => rw [hfind] at hc; simp at hc
  | some a =>
    have hmem := List.mem_of_find?_eq_some hfind
    have hpred := List.find?_some hfind
    simp only [decide_eq_true_eq] at hpred
    exact ⟨a, hmem, hpred⟩

/-- Witness for the amended C9: the concrete first refund of `C9db` ends in
the store `C9dbAfter` whose approvals are untouched and still gate refunds. -/
theorem refund_approval_not_consumed_witness :
    C9dbAfter.approvals = C9db.approvals ∧
    (∃ a ∈ C9db.approvals, a.shop = C9refund1.shop ∧
      a.request_type = RequestType.Refund ∧ a.status = ReqStatus.Approved) ∧
    ∀ r2 : Refund, Refund.clean C9dbAfter r2 = .ok () →
      ∃ db3, Refund.save C9dbAfter r2 = .ok db3 :=
  refund_approval_not_consumed C9db C9dbAfter C9refund1
    (by norm_num [C9db, C9refund1, C9dbAfter, Refund.save, Refund.clean, findProduct,
      findSale, saleRefundBranch, updateSale, updateProduct, updateFirst, List.find?])

/-! ### Claim C1: sale refund bookkeeping -/

theorem findSale_updateProduct (db : DB) (pid : Nat) (f : Product → Product) (sid : Nat) :
    findSale (updateProduct db pid f) sid = findSale db sid := rfl

theorem findOrder_updateProduct (db : DB) (pid : Nat) (f : Product → Product) (oid : Nat) :
    findOrder (updateProduct db pid f) oid = findOrder db oid := rfl

theorem refundedQuantity_updateOrder (db : DB) (oid : Nat) (f : Order → Order) (oid2 : Nat) :
    refundedQuantity (updateOrder db oid f) oid2 = refundedQuantity db oid2 := rfl

theorem findSale_saleRefundBranch (db : DB) (r : Refund) (sid : Nat) (s : Sale)
    (hs : findSale db sid = some s) :
    findSale (saleRefundBranch db r sid) sid = some (
      if s.total_refunded_amount + r.refund_amount ≥ s.total_amount - r.refund_amount then
        { s with total_amount := s.total_amount - r.refund_amount,
                 total_refunded_amount := s.total_refunded_amount + r.refund_amount,
                 is_refunded := true }
      else
        { s with total_amount := s.total_amount - r.refund_amount,
                 total_refunded_amount := s.total_refunded_amount + r.refund_amount }) := by
  unfold saleRefundBranch
  dsimp only
  have hid2 : ∀ x : Sale, ((fun s0 => if s0.total_refunded_amount ≥ s0.total_amount
      then { s0 with is_refunded := true } else s0) x).id = x.id := by
    intro x
    dsimp only
    split <;> rfl
  rw [findSale_updateSale_self _ _ _ hid2, findSale_updateProduct,
      findSale_updateSale_self db sid
        (fun s0 => { s0 with total_amount := s0.total_amount - r.refund_amount,
                             total_refunded_amount := s0.total_refunded_amount + r.refund_amount })
        (fun x => rfl),
      hs]
  rfl

/-- Claim C1: a refund against a sale subtracts the amount from the sale
total, adds it to the refunded total, and flips `is_refunded` exactly when the
new refunded total reaches the new total; on a sale of 100, an approved refund
of 30 yields (70, 30, false) and a further refund of 70 yields (0, true). -/
theorem sale_refund_bookkeeping :
    (∀ (db : DB) (r : Refund) (sid : Nat) (s : Sale),
      r.refund_type = RefundType.Sale → r.sale = some sid →
      findSale db sid = some s → s.is_refunded = false →
      Refund.clean db r = .ok () →
      ∃ db2, Refund.save db r = .ok db2 ∧
        ∃ s2, findSale db2 sid = some s2 ∧
          s2.total_amount = s.total_amount - r.refund_amount ∧
          s2.total_refunded_amount = s.total_refunded_amount + r.refund_amount ∧
          (s2.is_refunded = true ↔
            s.total_amount - r.refund_amount ≤ s.total_refunded_amount + r.refund_amount)) ∧
    ((Refund.save C1db C1refund30).toOption.bind fun d => findSale d 1).map
        (fun s => (s.total_amount, s.total_refunded_amount, s.is_refunded))
      = some (70, 30, false) ∧
    (((Refund.save C1db C1refund30).toOption.bind fun d =>
        (Refund.save d C1refund70).toOption).bind fun d => findSale d 1).map
        (fun s => (s.total_amount, s.is_refunded)) = some (0, true) := by
  refine ⟨?_, ?_, ?_⟩
  · intro db r sid s hrt hsid hs hflag hclean
    have hsave : Refund.save db r =
        .ok (saleRefundBranch { db with refunds := r :: db.refunds } r sid) := by
      unfold Refund.save
      rw [hclean]
      simp only [hrt, hsid]
    have hs0 : findSale { db with refunds := r :: db.refunds } sid = some s := hs
    have hfs := findSale_saleRefundBranch { db with refunds := r :: db.refunds } r sid s hs0
    refine ⟨_, hsave, _, hfs, ?_⟩
    by_cases hge : s.total_amount - r.refund_amount ≤ s.total_refunded_amount + r.refund_amount
    · rw [if_pos hge]
      simp [hge]
    · rw [if_neg hge]
      simp [hflag, hge]
  · norm_num [C1db, C1refund30, Refund.save, Refund.clean, findProduct, findSale,
      saleRefundBranch, updateSale, updateProduct, updateFirst, List.find?, Except.toOption]
  · norm_num [C1db, C1refund30, C1refund70, Refund.save, Refund.clean, findProduct, findSale,
      saleRefundBranch, updateSale, updateProduct, updateFirst, List.find?, Except.toOption]

/-- Witness for C1: the general statement applied to the concrete first refund
of 30 against the sale of 100. -/
theorem sale_refund_bookkeeping_witness :
    ∃ db2, Refund.save C1db C1refund30 = .ok db2 ∧
      ∃ s2, findSale db2 1 = some s2 ∧
        s2.total_amount = C1sale.total_amount - C1refund30.refund_amount ∧
        s2.total_refunded_amount = C1sale.total_refunded_amount + C1refund30.refund_amount ∧
        (s2.is_refunded = true ↔
          C1sale.total_amount - C1refund30.refund_amount ≤
            C1sale.total_refunded_amount + C1refund30.refund_amount) :=
  sale_refund_bookkeeping.1 C1db C1refund30 1 C1sale rfl rfl (by decide) rfl
    (by norm_num [C1db, C1refund30, Refund.clean, findProduct, List.find?])

/-! ### Claim C2: order refund and cancellation -/

theorem refundedQuantity_cons (db : DB) (r : Refund) (oid : Nat) (hro : r.order = some oid) :
    refundedQuantity { db with refunds := r :: db.refunds } oid
      = r.quantity + refundedQuantity db oid := by
  unfold refundedQuantity
  simp [List.filter_cons, hro]

theorem findOrder_orderRefundBranch (db : DB) (r : Refund) (oid : Nat) (o : Order)
    (ho : findOrder db oid = some o) :
    findOrder (orderRefundBranch db r oid) oid = some (
      if refundedQuantity db oid ≥ o.get_items_quantity then
        { o with total_amount := o.total_amount - r.refund_amount,
                 status := OrderStatus.Cancelled }
      else
        { o with total_amount := o.total_amount - r.refund_amount }) := by
  unfold orderRefundBranch
  dsimp only
  have h1 : findOrder (updateOrder db oid (fun o2 =>
      { o2 with total_amount := o2.total_amount - r.refund_amount })) oid
      = some { o with total_amount := o.total_amount - r.refund_amount } := by
    rw [findOrder_updateOrder_self db oid
      (fun o2 => { o2 with total_amount := o2.total_amount - r.refund_amount })
      (fun x => rfl), ho]
    rfl
  rw [findOrder_updateProduct, h1, refundedQuantity_updateOrder]
  dsimp only [Order.get_items_quantity]
  by_cases hge : refundedQuantity db oid ≥ (List.map OrderItem.quantity o.orderitem_set).sum
  · rw [if_pos hge, if_pos hge]
    rw [findOrder_updateOrder_self _ oid
      (fun o2 => { o2 with status := OrderStatus.Cancelled }) (fun x => rfl), h1]
    rfl
  · rw [if_neg hge, if_neg hge]
    exact h1

/-- Claim C2: a refund against an order subtracts the amount from the order
total and sets the status to Cancelled exactly when the refunded quantity over
all refunds of the order (the new one included) reaches the line-item quantity
total; refunding all 5 units of a 3+2 order across two calls cancels it. -/
theorem order_refund_cancellation :
    (∀ (db : DB) (r : Refund) (oid : Nat) (o : Order),
      r.refund_type = RefundType.Order → r.order = some oid →
      findOrder db oid = some o → o.status ≠ OrderStatus.Cancelled →
      Refund.clean db r = .ok () →
      ∃ db2, Refund.save db r = .ok db2 ∧
        ∃ o2, findOrder db2 oid = some o2 ∧
          o2.total_amount = o.total_amount - r.refund_amount ∧
          o2.orderitem_set = o.orderitem_set ∧
          (o2.status = OrderStatus.Cancelled ↔
            o.get_items_quantity ≤ r.quantity + refundedQuantity db oid)) ∧
    (((Refund.save C2db C2refund3).toOption.bind fun d =>
        (Refund.save d C2refund2).toOption).bind fun d => findOrder d 1).map
        (fun o => (o.total_amount, o.status)) = some (0, OrderStatus.Cancelled) := by
  constructor
  · intro db r oid o hrt hro ho hstat hclean
    have hsave : Refund.save db r =
        .ok (orderRefundBranch { db with refunds := r :: db.refunds } r oid) := by
      unfold Refund.save
      rw [hclean]
      simp only [hrt, hro]
    have ho0 : findOrder { db with refunds := r :: db.refunds } oid = some o := ho
    have hfo := findOrder_orderRefundBranch { db with refunds := r :: db.refunds } r oid o ho0
    rw [refundedQuantity_cons db r oid hro] at hfo
    refine ⟨_, hsave, _, hfo, ?_⟩
    by_cases hge : o.get_items_quantity ≤ r.quantity + refundedQuantity db oid
    · rw [if_pos hge]
      simp [hge]
    · rw [if_neg hge]
      simp [hstat, hge]
  · norm_num [C2db, C2refund3, C2refund2, Refund.save, Refund.clean, findProduct, findOrder,
      orderRefundBranch, refundedQuantity, Order.get_items_quantity, updateOrder,
      updateProduct, updateFirst, List.find?, List.filter, Except.toOption]

/-- Witness for C2: the general statement applied to the concrete first refund
of 3 units against the 3+2 order. -/
theorem order_refund_cancellation_witness :
    ∃ db2, Refund.save C2db C2refund3 = .ok db2 ∧
      ∃ o2, findOrder db2 1 = some o2 ∧
        o2.total_amount = C2order.total_amount - C2refund3.refund_amount ∧
        o2.orderitem_set = C2order.orderitem_set ∧
        (o2.status = OrderStatus.Cancelled ↔
          C2order.get_items_quantity ≤ C2refund3.quantity + refundedQuantity C2db 1) :=
  order_refund_cancellation.1 C2db C2refund3 1 C2order rfl rfl (by decide) (by decide)
    (by norm_num [C2db, C2refund3, Refund.clean, findProduct, List.find?])

/-! ### Claim C7: stock stays non-negative -/

theorem stockNonneg_updateSale (db : DB) (sid : Nat) (f : Sale → Sale)
    (h : stockNonneg db) : stockNonneg (updateSale db sid f) := h

theorem stockNonneg_updateOrder (db : DB) (oid : Nat) (f : Order → Order)
    (h : stockNonneg db) : stockNonneg (updateOrder db oid f) := h

theorem stockNonneg_updateProduct (db : DB) (pid : Nat) (f : Product → Product)
    (h : stockNonneg db) (hf : ∀ x, 0 ≤ x.quantity → 0 ≤ (f x).quantity) :
    stockNonneg (updateProduct db pid f) := by
  intro y hy
  rcases updateFirst_mem _ f db.products y hy with hmem | ⟨x, hx, rfl⟩
  · exact h y hmem
  · exact hf x (h x (List.mem_of_find?_eq_some hx))

theorem stockNonneg_updateProduct_found (db : DB) (pid : Nat) (f : Product → Product)
    (p : Product) (h : stockNonneg db) (hp : findProduct db pid = some p)
    (hfp : 0 ≤ (f p).quantity) : stockNonneg (updateProduct db pid f) := by
  intro y hy
  rcases updateFirst_mem _ f db.products y hy with hmem | ⟨x, hx, rfl⟩
  · exact h y hmem
  · unfold findProduct at hp
    rw [hx] at hp
    cases Option.some.inj hp
    exact hfp

theorem stockNonneg_saleRefundBranch (db : DB) (r : Refund) (sid : Nat)
    (h : stockNonneg db) : stockNonneg (saleRefundBranch db r sid) := by
  unfold saleRefundBranch
  dsimp only
  exact stockNonneg_updateSale _ _ _ (stockNonneg_updateProduct _ _ _
    (stockNonneg_updateSale _ _ _ h) (fun x hx => by dsimp only; omega))

theorem stockNonneg_orderRefundBranch (db : DB) (r : Refund) (oid : Nat)
    (h : stockNonneg db) : stockNonneg (orderRefundBranch db r oid) := by
  unfold orderRefundBranch
  dsimp only
  apply stockNonneg_updateProduct _ _ _ ?base (fun x hx => by dsimp only; omega)
  case base =>
    split
    · split
      · exact stockNonneg_updateOrder _ _ _ (stockNonneg_updateOrder _ _ _ h)
      · exact stockNonneg_updateOrder _ _ _ h
    · exact stockNonneg_updateOrder _ _ _ h

theorem stockNonneg_refundStep (db : DB) (r : Refund) (h : stockNonneg db) :
    stockNonneg (refundStep db r) := by
  unfold refundStep
  cases hs : Refund.save db r with
  | error e => exact h
  | ok db2 =>
    have hc := Refund.clean_ok_of_save db db2 r hs
    unfold Refund.save at hs
    rw [hc] at hs
    have h0 : stockNonneg ({ db with refunds := r :: db.refunds }) := h
    cases hrt : r.refund_type <;> cases hsa : r.sale <;> cases ho : r.order <;>
      simp only [hrt, hsa, ho] at hs <;> cases hs
    all_goals first
      | exact h0
      | exact stockNonneg_saleRefundBranch _ r _ h0
      | exact stockNonneg_orderRefundBranch _ r _ h0

theorem processSaleItems_stockNonneg : ∀ (items : List ItemRequest) (db : DB) (sid : Nat)
    (total : ℚ) (db2 : DB) (total2 : ℚ),
    processSaleItems db sid total items = .ok (db2, total2) → stockNonneg db →
    stockNonneg db2 := by
  intro items
  induction items with
  | nil =>
    intro db sid total db2 total2 hp h
    unfold processSaleItems at hp
    cases hp
    exact h
  | cons it rest ih =>
    intro db sid total db2 total2 hp h
    unfold processSaleItems at hp
    cases hf : findProduct db it.product with
    | none => rw [hf] at hp; simp at hp
    | some p =>
      rw [hf] at hp
      dsimp only at hp
      by_cases hq : p.quantity < (it.quantity : ℤ)
      · rw [if_pos hq] at hp; simp at hp
      · rw [if_neg hq] at hp
        refine ih _ _ _ _ _ hp ?_
        refine stockNonneg_updateProduct_found _ _ _ p
          (stockNonneg_updateSale _ _ _ h) hf ?_
        dsimp only
        omega

theorem processOrderItems_stockNonneg : ∀ (items : List ItemRequest) (db : DB) (oid : Nat)
    (total : ℚ) (db2 : DB) (total2 : ℚ),
    processOrderItems db oid total items = .ok (db2, total2) → stockNonneg db →
    stockNonneg db2 := by
  intro items
  induction items with
  | nil =>
    intro db oid total db2 total2 hp h
    unfold processOrderItems at hp
    cases hp
    exact h
  | cons it rest ih =>
    intro db oid total db2 total2 hp h
    unfold processOrderItems at hp
    cases hf : findProduct db it.product with
    | none => rw [hf] at hp; simp at hp
    | some p =>
      rw [hf] at hp
      dsimp only at hp
      by_cases hq : p.quantity < (it.quantity : ℤ)
      · rw [if_pos hq] at hp; simp at hp
      · rw [if_neg hq] at hp
        refine ih _ _ _ _ _ hp ?_
        refine stockNonneg_updateProduct_found _ _ _ p
          (stockNonneg_updateOrder _ _ _ h) hf ?_
        dsimp only
        omega

theorem stockNonneg_saleStep (db : DB) (shop : Nat) (items : List ItemRequest)
    (h : stockNonneg db) : stockNonneg (saleStep db shop items) := by
  unfold saleStep
  cases hc : SaleSerializer.createIntended db shop items with
  | error e => exact h
  | ok db2 =>
    unfold SaleSerializer.createIntended at hc
    by_cases he : items.isEmpty
    · rw [if_pos he] at hc; simp at hc
    · rw [if_neg he] at hc
      cases hp : processSaleItems
          { db with sales := ⟨freshSaleId db, shop, 0, false, 0, []⟩ :: db.sales }
          (freshSaleId db) 0 items with
      | error e => rw [hp] at hc; simp at hc
      | ok res =>
        obtain ⟨db1, total⟩ := res
        rw [hp] at hc
        cases hc
        exact stockNonneg_updateSale _ _ _
          (processSaleItems_stockNonneg items _ _ _ _ _ hp h)

theorem stockNonneg_orderStep (db : DB) (shop : Nat) (items : List ItemRequest)
    (h : stockNonneg db) : stockNonneg (orderStep db shop items) := by
  unfold orderStep
  cases hc : OrderSerializer.createIntended db shop items with
  | error e => exact h
  | ok db2 =>
    unfold OrderSerializer.createIntended at hc
    cases hp : processOrderItems
        { db with orders := ⟨freshOrderId db, shop, 0, OrderStatus.Pending, []⟩ :: db.orders }
        (freshOrderId db) 0 items with
    | error e => rw [hp] at hc; simp at hc
    | ok res =>
      obtain ⟨db1, total⟩ := res
      rw [hp] at hc
      cases hc
      exact stockNonneg_updateOrder _ _ _
        (processOrderItems_stockNonneg items _ _ _ _ _ hp h)

theorem stockNonneg_stepOp (db : DB) (op : Op) (h : stockNonneg db) :
    stockNonneg (stepOp db op) := by
  cases op with
  | createSale shop items => exact stockNonneg_saleStep db shop items h
  | createOrder shop items => exact stockNonneg_orderStep db shop items h
  | applyRefund r => exact stockNonneg_refundStep db r h

/-- Claim C7: starting from a store with non-negative stock, any sequence of
sale creations, order creations and refund applications keeps every product
quantity non-negative: creations only decrement after a sufficiency check,
refunds only increment, failed requests change nothing. -/
theorem stock_never_negative (db : DB) (ops : List Op) (h : stockNonneg db) :
    stockNonneg (runOps db ops) := by
  induction ops generalizing db with
  | nil => exact h
  | cons op rest ih => exact ih (stepOp db op) (stockNonneg_stepOp db op h)

/-- Witness for C7: a concrete run with a sale, a rejected over-large sale, an
order and a refund. -/
theorem stock_never_negative_witness :
    stockNonneg C7db ∧ stockNonneg (runOps C7db C7ops) :=
  ⟨by decide, stock_never_negative C7db C7ops (by decide)⟩

/-! ### Claim C5: the insufficient-stock failure is unreachable as bound -/

/-- Claim C5 (code bug): as bound, the create paths never reach the stock
check. `SaleSerializer.create` rejects every request - the stock-exceeding
`C5items` (4 units of a product with stock 3) against `C5db` included - with
the no-items error before reading any line, and `OrderSerializer.create`
fails every request that has a line item at its first line-item write;
neither path ever surfaces `InsufficientStock`. -/
theorem insufficient_stock_unreachable :
    (∀ (db : DB) (shop : Nat) (items : List ItemRequest),
      SaleSerializer.create db shop items = .error CreateError.NoItems) ∧
    (∀ (db : DB) (shop : Nat) (it : ItemRequest) (rest : List ItemRequest),
      OrderSerializer.create db shop (it :: rest) = .error CreateError.FieldError) ∧
    SaleSerializer.create C5db 7 C5items = .error CreateError.NoItems ∧
    OrderSerializer.create C5db 7 C5items = .error CreateError.FieldError ∧
    findProduct C5db 1 = some ⟨1, 5, 3⟩ ∧ C5items = [⟨1, 4⟩] :=
  ⟨fun _ _ _ => rfl, fun _ _ _ _ => rfl, rfl, rfl, by decide, rfl⟩

/-! ### Claim C6: no transaction with line items can be created as bound -/

/-- Claim C6 (code bug): the success path the claim quantifies over does not
exist. Every sale creation fails with the no-items error - including the
well-stocked two-line request `C6items` against `C6db` - and every order
creation with at least one line fails at its first line-item write; the only
order that persists is an empty one, with no line items and total 0, so no
created transaction with line items exists to carry the snapshot-total
equation. -/
theorem transaction_creation_unreachable :
    (∀ (db : DB) (shop : Nat) (items : List ItemRequest),
      SaleSerializer.create db shop items = .error CreateError.NoItems) ∧
    (∀ (db : DB) (shop : Nat),
      OrderSerializer.create db shop []
        = .ok { db with orders :=
            ⟨freshOrderId db, shop, 0, OrderStatus.Pending, []⟩ :: db.orders }) ∧
    (∀ (db : DB) (shop : Nat) (it : ItemRequest) (rest : List ItemRequest),
      OrderSerializer.create db shop (it :: rest) = .error CreateError.FieldError) ∧
    SaleSerializer.create C6db 7 C6items = .error CreateError.NoItems :=
  ⟨fun _ _ _ => rfl, fun _ _ => rfl, fun _ _ _ _ => rfl, rfl⟩
